import Mathlib

/-!
Shallow embedding of the SpendingAnalysis core computations
(`src/ai_report/features.py`, `src/expense_preprocess/preprocess.py`).

Conventions of the embedding:
* dates are absolute day numbers (days since 1970-01-01) as `ℤ`; the
  transaction tables produced by the preprocessing step carry dates at
  midnight, so the pandas timestamps are represented by the day number;
* money amounts are `ℚ` (Python floats are used by the source only for
  arithmetic that is exact on the inputs we reason about);
* pandas `Series`/dict results become `Option`/lists; a missing value
  (`None`/`NaN`) is `none`.
-/

namespace SpendingAnalysis

/-- Month index (`year * 12 + (month - 1)`) of an absolute day number,
proleptic Gregorian calendar with epoch 1970-01-01.  This embeds pandas
`Series.dt.to_period("M")`: the source compares the resulting `"YYYY-MM"`
strings, whose lexicographic order agrees with the order of this index for
the dates representable by pandas timestamps. -/
def monthOf (t : ℤ) : ℤ :=
  let z := t + 719468
  let era := z.fdiv 146097
  let doe := z.fmod 146097
  let yoe := (doe - doe / 1460 + doe / 36524 - doe / 146096) / 365
  let y := yoe + era * 400
  let doy := doe - (365 * yoe + yoe / 4 - yoe / 100)
  let mp := (5 * doy + 2) / 153
  let m := mp + (if mp < 10 then 3 else -9)
  let year := y + (if m ≤ 2 then 1 else 0)
  year * 12 + (m - 1)

/-- Python `datetime.weekday()`: Monday = 0 … Sunday = 6
(1970-01-01 was a Thursday, hence the offset 3). -/
def weekdayOf (t : ℤ) : ℤ :=
  (t + 3).emod 7

/-- `tmp["is_weekend"] = tmp["weekday"].isin([5, 6])` in
`_compute_short_term_compare`. -/
def isWeekend (t : ℤ) : Bool :=
  weekdayOf t = 5 ∨ weekdayOf t = 6

/-- `np.median`: with the values sorted ascending, the middle element for an
odd count and the average of the two middle elements for an even count
(the single formula below covers both cases). -/
def medianQ (l : List ℚ) : ℚ :=
  let s := l.insertionSort (· ≤ ·)
  (s.getD ((s.length - 1) / 2) 0 + s.getD (s.length / 2) 0) / 2

/-- The parameter record `AIRuleParams` (src/ai_report/params.py),
restricted to the fields the embedded computations read. -/
structure AIRuleParams where
  overspendRatioOk : ℚ
  overspendRatioWarn : ℚ
  expenseRecentK : ℕ
  savingsRateLow : ℚ
  savingsRateHigh : ℚ
  fixedCostMaxRatio : ℚ

/-- The dataclass defaults of `AIRuleParams`. -/
def defaultParams : AIRuleParams :=
  { overspendRatioOk := 55/100
    overspendRatioWarn := 70/100
    expenseRecentK := 3
    savingsRateLow := 10/100
    savingsRateHigh := 30/100
    fixedCostMaxRatio := 40/100 }

/-- `_recent_k`: sort the monthly series by its (month) index and keep the
last `k` entries (`s.iloc[-k:] if len(s) > k else s`, with `k ≥ 1` as used
by every caller). -/
def recentK (series : List (ℤ × ℚ)) (k : ℕ) : List (ℤ × ℚ) :=
  let s := series.insertionSort (fun a b => a.1 ≤ b.1)
  if 0 < k ∧ k < s.length then s.drop (s.length - k) else s

/-- The clamp `min(max(rate, 0.0), 0.9)` applied to both savings rates in
`_estimate_income_from_expense`. -/
def clampRate (x : ℚ) : ℚ :=
  min (max x 0) (9/10)

/-- Result of `_estimate_income_from_expense` (the `notes` strings are
presentation only and are not modelled). -/
structure IncomeEst where
  available : Bool
  baseExpense : Option ℚ
  expectedIncome : Option ℚ
  incomeLow : Option ℚ
  incomeHigh : Option ℚ
  confidence : String
  deriving Repr, DecidableEq

/-- The savings-rate block of `_estimate_income_from_expense`: clamp both
rates to `[0, 0.9]` and swap so the first component is the smaller
(`if high < low: low, high = high, low`). -/
def incomeRates (p : AIRuleParams) : ℚ × ℚ :=
  let low0 := clampRate p.savingsRateLow
  let high0 := clampRate p.savingsRateHigh
  if high0 < low0 then (high0, low0) else (low0, high0)

/-- The fixed-cost floor of `_estimate_income_from_expense`
(`fixed_cost_est_monthly and fixed_cost_est_monthly > 0 and
params.fixed_cost_max_ratio > 0`; the Python truthiness test is subsumed
by the positivity test). -/
def floorIncomeOf (fixedCostEstMonthly : ℚ) (p : AIRuleParams) : Option ℚ :=
  if 0 < fixedCostEstMonthly ∧ 0 < p.fixedCostMaxRatio then
    some (fixedCostEstMonthly / p.fixedCostMaxRatio)
  else none

/-- Raising an optional income figure to an optional floor
(`income_low = max(income_low, floor_income)` guarded by `None` checks). -/
def applyFloor : Option ℚ → Option ℚ → Option ℚ
  | some v, some f => some (max v f)
  | v, _ => v

/-- Mean of a list of rationals (`np.mean`). -/
def meanQ (vals : List ℚ) : ℚ :=
  vals.sum / (vals.length : ℚ)

/-- Population variance (`np.std` squared, `ddof = 0`). -/
def varianceQ (vals : List ℚ) : ℚ :=
  (vals.map (fun x => (x - meanQ vals) ^ 2)).sum / (vals.length : ℚ)

/-- The confidence block of `_estimate_income_from_expense`.  The source
compares `cv = np.std(vals) / (np.mean(vals) + 1e-9)` with a threshold `c`;
since `np.std` is the square root of `varianceQ`, `cv < c` is encoded
square-root-free as `varianceQ < (c * denom)²` whenever the denominator is
positive (equivalent there, both sides of the original comparison being
squared monotonically); for a negative denominator `cv ≤ 0 < c`, so the
comparison holds. -/
def confidenceOf (vals : List ℚ) : String :=
  let denom := meanQ vals + 1 / 1000000000
  if 3 ≤ vals.length ∧ (if 0 < denom then varianceQ vals < (1/4 * denom) ^ 2 else True) then
    "High"
  else if 2 ≤ vals.length ∧ (if 0 < denom then varianceQ vals < (2/5 * denom) ^ 2 else True) then
    "Med"
  else "Low"

/-- `_estimate_income_from_expense`. -/
def estimateIncome (monthlyExpense : List (ℤ × ℚ)) (fixedCostEstMonthly : ℚ)
    (p : AIRuleParams) : IncomeEst :=
  if monthlyExpense = [] then
    { available := false, baseExpense := none, expectedIncome := none,
      incomeLow := none, incomeHigh := none, confidence := "Low" }
  else
    let recent := recentK monthlyExpense p.expenseRecentK
    let vals := recent.map Prod.snd
    let base := medianQ vals
    let low := (incomeRates p).1
    let high := (incomeRates p).2
    let incomeLow0 : Option ℚ := if 0 < 1 - low then some (base / (1 - low)) else none
    let incomeHigh0 : Option ℚ := if 0 < 1 - high then some (base / (1 - high)) else none
    let floorIncome := floorIncomeOf fixedCostEstMonthly p
    let midS := (low + high) / 2
    let expected0 : Option ℚ := if 0 < 1 - midS then some (base / (1 - midS)) else none
    { available := true, baseExpense := some base,
      expectedIncome := applyFloor expected0 floorIncome,
      incomeLow := applyFloor incomeLow0 floorIncome,
      incomeHigh := applyFloor incomeHigh0 floorIncome,
      confidence := confidenceOf vals }

/-- Result of `_calc_mom_change`. -/
structure MomChange where
  available : Bool
  currentMonth : Option ℤ
  prevMonth : Option ℤ
  currentAmount : Option ℚ
  prevAmount : Option ℚ
  changeRate : Option ℚ
  deriving Repr, DecidableEq

/-- `_calc_mom_change`: with fewer than two entries everything is
unavailable; otherwise sort by month and compare the last two entries,
with a `None` rate when the previous month's amount is `0`. -/
def calcMomChange (series : List (ℤ × ℚ)) : MomChange :=
  if series.length < 2 then
    { available := false, currentMonth := none, prevMonth := none,
      currentAmount := none, prevAmount := none, changeRate := none }
  else
    let s := series.insertionSort (fun a b => a.1 ≤ b.1)
    let cur := s.getD (s.length - 1) (0, 0)
    let prev := s.getD (s.length - 2) (0, 0)
    { available := true, currentMonth := some cur.1, prevMonth := some prev.1,
      currentAmount := some cur.2, prevAmount := some prev.2,
      changeRate := if prev.2 = 0 then none else some ((cur.2 - prev.2) / prev.2) }

/-- A raw transaction row as seen by `_clean_types` after date/amount
cleaning (the text columns as strings, the amount already numeric). -/
structure RawRow where
  typeRaw : String
  description : String
  categoryLv1 : String
  categoryLv2 : String
  paymentMethod : String
  amount : ℚ
  deriving Repr, DecidableEq

/-- Lower-cased character list of a string (`case=False` matching). -/
def lowerChars (s : String) : List Char :=
  s.data.map Char.toLower

/-- Does `needle` occur as a contiguous subsequence of the haystack?
This is `Series.str.contains` for the keyword patterns of `_clean_types`,
which are plain alternations of literals. -/
def occursIn (needle : List Char) : List Char → Bool
  | [] => needle.isEmpty
  | c :: rest => needle.isPrefixOf (c :: rest) || occursIn needle rest

/-- `text.str.contains(kw_pattern, case=False)` for an alternation of the
given literal keywords. -/
def matchesAnyKw (kws : List String) (text : List Char) : Bool :=
  kws.any fun k => occursIn (lowerChars k) text

/-- The alternation `(이체|송금|계좌이체|내계좌|transfer|remit)`. -/
def transferKw : List String :=
  ["이체", "송금", "계좌이체", "내계좌", "transfer", "remit"]

/-- The alternation `(수입|입금|급여|월급|환급|정산|보너스|상여|이자|배당|캐시백)`. -/
def incomeKw : List String :=
  ["수입", "입금", "급여", "월급", "환급", "정산", "보너스", "상여", "이자", "배당", "캐시백"]

/-- The alternation `(지출|출금|결제|사용|승인|구매|납부|자동이체)`. -/
def expenseKw : List String :=
  ["지출", "출금", "결제", "사용", "승인", "구매", "납부", "자동이체"]

/-- `text = raw_type + " " + desc + " " + cat1 + " " + cat2 + " " + pay`. -/
def rowText (r : RawRow) : List Char :=
  lowerChars (r.typeRaw ++ " " ++ r.description ++ " " ++ r.categoryLv1 ++ " "
    ++ r.categoryLv2 ++ " " ++ r.paymentMethod)

/-- The per-row value of the `type` column produced by `_clean_types`:
transfer keywords, then income keywords, then expense keywords, then the
amount-sign fallback.  (The vectorized masks of the source assign exactly
this priority row by row; the final defensive fill to `"지출"` is
unreachable because the sign fallback already covers every row.) -/
def classifyType (r : RawRow) : String :=
  if matchesAnyKw transferKw (rowText r) then "이체"
  else if matchesAnyKw incomeKw (rowText r) then "수입"
  else if matchesAnyKw expenseKw (rowText r) then "지출"
  else if r.amount < 0 then "지출"
  else "수입"

/-- `df["is_expense"] = df["type"] == "지출"` in `_enrich`. -/
def isExpenseRow (r : RawRow) : Bool := classifyType r = "지출"

/-- `df["is_income"] = df["type"] == "수입"` in `_enrich`. -/
def isIncomeRow (r : RawRow) : Bool := classifyType r = "수입"

/-- `df["is_transfer"] = df["type"] == "이체"` in `_enrich`. -/
def isTransferRow (r : RawRow) : Bool := classifyType r = "이체"

/-- The spend-ratio/judgement block of `build_ai_summary`: given the
(optional) expected income and the period's total expense, produce the
optional spend ratio and the judgement label. -/
def spendJudgement (expectedIncome : Option ℚ) (totalExpense : ℚ)
    (p : AIRuleParams) : Option ℚ × String :=
  match expectedIncome with
  | none => (none, "추정 수입 산정 불가")
  | some e =>
    if e ≤ 0 then (none, "추정 수입 산정 불가")
    else
      let ratio := totalExpense / e
      (some ratio,
        if ratio < p.overspendRatioOk then "정상"
        else if ratio < p.overspendRatioWarn then "주의"
        else "경고")

/-- An expense transaction as used by `_compute_short_term_compare`
(date already valid, `amount_abs` computed, `category_lv1` defaulted). -/
structure Tx where
  date : ℤ
  amountAbs : ℚ
  categoryLv1 : String
  deriving Repr, DecidableEq

/-- `series.dt.normalize().nunique()`: number of distinct calendar days. -/
def distinctDays (txs : List Tx) : ℕ :=
  ((txs.map Tx.date).dedup).length

/-- `series["amount_abs"].sum()`. -/
def totalAmount (txs : List Tx) : ℚ :=
  (txs.map Tx.amountAbs).sum

/-- `tmp[(tmp["date"] >= a) & (tmp["date"] <= b)]`. -/
def txsInWindow (txs : List Tx) (a b : ℤ) : List Tx :=
  txs.filter fun t => decide (a ≤ t.date ∧ t.date ≤ b)

/-- `tmp[tmp["month"] == m]`. -/
def txsInMonth (txs : List Tx) (m : ℤ) : List Tx :=
  txs.filter fun t => decide (monthOf t.date = m)

/-- The distinct month keys present in the data (`tmp["month"].unique()`). -/
def monthsWithData (txs : List Tx) : List ℤ :=
  ((txs.map fun t => monthOf t.date).dedup)

/-- `months_sorted = sorted(...unique months...)`. -/
def monthsSorted (txs : List Tx) : List ℤ :=
  (monthsWithData txs).insertionSort (· ≤ ·)

/-- `full_months = [m for m in months_sorted if m < end_month]`. -/
def fullMonths (txs : List Tx) (endMonth : ℤ) : List ℤ :=
  (monthsSorted txs).filter fun m => decide (m < endMonth)

/-- `use_months = full_months[-baseline_months:]` (the call sites use
`baseline_months = 3 ≥ 1`, for which the Python slice is the last
`baseline_months` elements). -/
def useMonths (txs : List Tx) (endMonth : ℤ) (baselineMonths : ℕ) : List ℤ :=
  let f := fullMonths txs endMonth
  f.drop (f.length - baselineMonths)

/-- The `month_daily_avgs` loop: for each used month, total divided by the
count of distinct days with data, skipping empty months (unreachable for
months drawn from the data). -/
def monthDailyAvgs (txs : List Tx) (endMonth : ℤ) (baselineMonths : ℕ) : List ℚ :=
  (useMonths txs endMonth baselineMonths).filterMap fun m =>
    let mtxs := txsInMonth txs m
    if mtxs = [] then none
    else
      let days := distinctDays mtxs
      if days = 0 then none
      else some (totalAmount mtxs / (days : ℚ))

/-- The distinct days of the whole history (index of `daily_total`). -/
def dailyKeys (txs : List Tx) : List ℤ :=
  ((txs.map Tx.date).dedup)

/-- `daily_total = tmp.groupby("day")["amount_abs"].sum()` (values). -/
def dailyTotals (txs : List Tx) : List ℚ :=
  (dailyKeys txs).map fun d => totalAmount (txs.filter fun t => decide (t.date = d))

/-- The distinct categories of a table (`groupby("category_lv1")` keys). -/
def catKeys (txs : List Tx) : List String :=
  ((txs.map Tx.categoryLv1).dedup)

/-- `groupby("category_lv1")["amount_abs"].sum()` as an association list. -/
def catSums (txs : List Tx) : List (String × ℚ) :=
  (catKeys txs).map fun c => (c, totalAmount (txs.filter fun t => decide (t.categoryLv1 = c)))

/-- `sort_values(ascending=False)` on a value-keyed mapping. -/
def sortByValDesc (l : List (String × ℚ)) : List (String × ℚ) :=
  l.insertionSort fun a b => b.2 ≤ a.2

/-- `...sort_values(ascending=False).head(n)`: the top-`n` categories. -/
def topCategories (txs : List Tx) (n : ℕ) : List (String × ℚ) :=
  (sortByValDesc (catSums txs)).take n

/-- `mapping.get(key, default)` on an association list. -/
def catLookup (l : List (String × ℚ)) (c : String) (d : ℚ) : ℚ :=
  ((l.find? fun p => decide (p.1 = c)).map Prod.snd).getD d

/-- The three baselines of `_compute_short_term_compare`. -/
inductive BaselineKind
  | previousWindow
  | recentFullMonthsDailyMedian
  | overallDailyMedian
  deriving Repr, DecidableEq

/-- One entry of `category_deltas_top`. -/
structure CatDelta where
  categoryLv1 : String
  current : ℚ
  baseline : Option ℚ
  diff : Option ℚ
  pct : Option ℚ
  baselineReliable : Bool
  deriving Repr, DecidableEq

/-- The fields of the `_compute_short_term_compare` result that the claims
are about (window/meta echo fields are omitted). -/
structure STCResult where
  available : Bool
  baselineUsed : Option BaselineKind
  baselineTotal : Option ℚ
  confidence : Option String
  diff : Option ℚ
  pct : Option ℚ
  weekdayDiff : Option ℚ
  weekendDiff : Option ℚ
  catDeltasTop : List CatDelta
  currentTotal : ℚ
  reason : Option String
  deriving Repr, DecidableEq

/-- The `cat_deltas` loop: per top category of the current window, the
baseline amount is looked up in the previous window only in the
`previous_window` branch and is explicitly omitted (`None`) for the two
daily-median baselines. -/
def catDeltasFor (used : BaselineKind) (curTop : List (String × ℚ))
    (prevCat : List (String × ℚ)) : List CatDelta :=
  curTop.map fun p =>
    let baseAmt : Option ℚ :=
      if used = BaselineKind.previousWindow then some (catLookup prevCat p.1 0) else none
    { categoryLv1 := p.1
      current := p.2
      baseline := baseAmt
      diff := baseAmt.map fun b => p.2 - b
      pct := match baseAmt with
        | none => none
        | some b => if b = 0 then none else some ((p.2 - b) / b)
      baselineReliable := decide (used = BaselineKind.previousWindow) }

/-- An unavailable `_compute_short_term_compare` result. -/
def stcUnavailable (reason : String) : STCResult :=
  { available := false, baselineUsed := none, baselineTotal := none,
    confidence := none, diff := none, pct := none, weekdayDiff := none,
    weekendDiff := none, catDeltasTop := [], currentTotal := 0,
    reason := some reason }

/-- `_compute_short_term_compare`. -/
def shortTermCompare (txs : List Tx) (endDay : ℤ) (windowDays : ℕ := 30)
    (baselineMonths : ℕ := 3) (topN : ℕ := 3) : STCResult :=
  if txs = [] then stcUnavailable "지출 데이터가 없습니다."
  else
    let curStart := endDay - ((windowDays : ℤ) - 1)
    let cur := txsInWindow txs curStart endDay
    let curTotal := totalAmount cur
    let curWeekdayTotal := totalAmount (cur.filter fun t => !(isWeekend t.date))
    let curWeekendTotal := totalAmount (cur.filter fun t => isWeekend t.date)
    let curTop := topCategories cur topN
    let prevEnd := curStart - 1
    let prevStart := prevEnd - ((windowDays : ℤ) - 1)
    let prev := txsInWindow txs prevStart prevEnd
    let prevTotal := totalAmount prev
    let prevWeekdayTotal := totalAmount (prev.filter fun t => !(isWeekend t.date))
    let prevWeekendTotal := totalAmount (prev.filter fun t => isWeekend t.date)
    let prevCat := catSums prev
    let prevOk := max 10 (windowDays / 3) ≤ distinctDays prev
    let endMonth := monthOf endDay
    let avgs := monthDailyAvgs txs endMonth baselineMonths
    let monthOk := 2 ≤ avgs.length
    let overallOk := 14 ≤ (dailyKeys txs).length
    if prevOk then
      let baselineTotal := prevTotal
      { available := true, baselineUsed := some BaselineKind.previousWindow,
        baselineTotal := some baselineTotal, confidence := some "High",
        diff := some (curTotal - baselineTotal),
        pct := if baselineTotal = 0 then none
          else some ((curTotal - baselineTotal) / baselineTotal),
        weekdayDiff := some (curWeekdayTotal - prevWeekdayTotal),
        weekendDiff := some (curWeekendTotal - prevWeekendTotal),
        catDeltasTop := catDeltasFor BaselineKind.previousWindow curTop prevCat,
        currentTotal := curTotal, reason := none }
    else if monthOk then
      let baselineTotal := medianQ avgs * (windowDays : ℚ)
      { available := true,
        baselineUsed := some BaselineKind.recentFullMonthsDailyMedian,
        baselineTotal := some baselineTotal, confidence := some "Medium",
        diff := some (curTotal - baselineTotal),
        pct := if baselineTotal = 0 then none
          else some ((curTotal - baselineTotal) / baselineTotal),
        weekdayDiff := none, weekendDiff := none,
        catDeltasTop := catDeltasFor BaselineKind.recentFullMonthsDailyMedian curTop prevCat,
        currentTotal := curTotal, reason := none }
    else if overallOk then
      let baselineTotal := medianQ (dailyTotals txs) * (windowDays : ℚ)
      { available := true, baselineUsed := some BaselineKind.overallDailyMedian,
        baselineTotal := some baselineTotal, confidence := some "Low",
        diff := some (curTotal - baselineTotal),
        pct := if baselineTotal = 0 then none
          else some ((curTotal - baselineTotal) / baselineTotal),
        weekdayDiff := none, weekendDiff := none,
        catDeltasTop := catDeltasFor BaselineKind.overallDailyMedian curTop prevCat,
        currentTotal := curTotal, reason := none }
    else stcUnavailable "비교 기준을 만들 데이터가 부족합니다."

/-- A row of the period expense table `df_expense_period` as used by the
fixed-cost block of `build_ai_summary`. -/
structure ExpenseRow where
  date : ℤ
  amountAbs : ℚ
  description : String
  deriving Repr, DecidableEq

/-- Number of distinct calendar months in which a description occurs
(`groupby("description")["month"].nunique()` for one description). -/
def descMonthCount (rows : List ExpenseRow) (d : String) : ℕ :=
  (((rows.filter fun r => decide (r.description = d)).map
      fun r => monthOf r.date).dedup).length

/-- The distinct descriptions of the table. -/
def descKeys (rows : List ExpenseRow) : List String :=
  ((rows.map ExpenseRow.description).dedup)

/-- `rep = tmp.groupby("description")["month"].nunique()`. -/
def repPairs (rows : List ExpenseRow) : List (String × ℕ) :=
  (descKeys rows).map fun d => (d, descMonthCount rows d)

/-- `rep.sort_values(ascending=False)`. -/
def sortByCountDesc (l : List (String × ℕ)) : List (String × ℕ) :=
  l.insertionSort fun a b => b.2 ≤ a.2

/-- `fixed_desc = rep[rep >= 3].head(10).index.tolist()` (after the
descending sort of `rep`): qualifying descriptions capped to the ten with
the most distinct months. -/
def fixedDesc (rows : List ExpenseRow) : List String :=
  (((sortByCountDesc (repPairs rows)).filter fun p => decide (3 ≤ p.2)).take 10).map Prod.fst

/-- `fixed_df = tmp[tmp["description"].isin(fixed_desc)]`. -/
def fixedDf (rows : List ExpenseRow) : List ExpenseRow :=
  rows.filter fun r => decide (r.description ∈ fixedDesc rows)

/-- Mean per-occurrence amount of a description within a table
(`groupby("description")["amount_abs"].mean()` for one description). -/
def descMeanAmount (rows : List ExpenseRow) (d : String) : ℚ :=
  let sel := rows.filter fun r => decide (r.description = d)
  (sel.map ExpenseRow.amountAbs).sum / (sel.length : ℚ)

/-- `fixed_candidates`: mean amount per selected description, sorted
descending by mean and capped at ten (the final `head(10)` is a no-op,
the selection before it already having at most ten descriptions). -/
def fixedCandidates (rows : List ExpenseRow) : List (String × ℚ) :=
  let fd := fixedDf rows
  ((((fd.map ExpenseRow.description).dedup).map fun d => (d, descMeanAmount fd d)).insertionSort
    fun a b => b.2 ≤ a.2).take 10

/-- `fixed_cost_est_monthly = float(sum(fixed_candidates.values()))`
(`0.0` when there are no candidates). -/
def fixedCostEstMonthlyOf (rows : List ExpenseRow) : ℚ :=
  ((fixedCandidates rows).map Prod.snd).sum

/-- A concrete period table with eleven recurring descriptions: `"big"`
appears in exactly 3 distinct months with amount 100, and ten descriptions
`"s0"`…`"s9"` appear in 4 distinct months each with amount 1 (days 0, 31,
59, 90 fall in 1970-01…04). -/
def exRows : List ExpenseRow :=
  ([0, 31, 59].map fun d => ⟨d, 100, "big"⟩) ++
  ((["s0", "s1", "s2", "s3", "s4", "s5", "s6", "s7", "s8", "s9"].map fun s =>
    [(0 : ℤ), 31, 59, 90].map fun d => ⟨d, 1, s⟩).flatten)

instance : IsTotal (String × ℚ) (fun a b => b.2 ≤ a.2) :=
  ⟨fun a b => le_total b.2 a.2⟩

instance : IsTrans (String × ℚ) (fun a b => b.2 ≤ a.2) :=
  ⟨fun _ _ _ hab hbc => le_trans hbc hab⟩

/-! ## Helper lemmas -/

theorem filterMap_eq_map_of_forall {α β : Type} {f : α → Option β} {g : α → β}
    {l : List α} (h : ∀ a ∈ l, f a = some (g a)) : l.filterMap f = l.map g := by
  induction l with
  | nil => rfl
  | cons a l ih =>
    rw [List.filterMap_cons, h a (List.mem_cons_self a l), List.map_cons,
      ih fun b hb => h b (List.mem_cons_of_mem a hb)]

theorem getD_nonneg {l : List ℚ} (h : ∀ x ∈ l, 0 ≤ x) (n : ℕ) {d : ℚ}
    (hd : 0 ≤ d) : 0 ≤ l.getD n d := by
  rw [List.getD_eq_getElem?_getD]
  rcases hq : l[n]? with _ | v
  · simpa using hd
  · simpa using h v (List.getElem?_mem hq)

theorem medianQ_nonneg {l : List ℚ} (h : ∀ x ∈ l, 0 ≤ x) : 0 ≤ medianQ l := by
  unfold medianQ
  have hs : ∀ x ∈ l.insertionSort (· ≤ ·), 0 ≤ x := fun x hx =>
    h x ((List.mem_insertionSort _).1 hx)
  have h1 := getD_nonneg hs (((l.insertionSort (· ≤ ·)).length - 1) / 2) le_rfl
  have h2 := getD_nonneg hs ((l.insertionSort (· ≤ ·)).length / 2) le_rfl
  have : (0:ℚ) < 2 := by norm_num
  positivity

theorem recentK_subset (l : List (ℤ × ℚ)) (k : ℕ) : recentK l k ⊆ l := by
  intro x hx
  simp only [recentK] at hx
  split at hx
  · exact (List.mem_insertionSort _).1 (List.mem_of_mem_drop hx)
  · exact (List.mem_insertionSort _).1 hx

theorem recentK_ne_nil {l : List (ℤ × ℚ)} (h : l ≠ []) (k : ℕ) :
    recentK l k ≠ [] := by
  simp only [recentK]
  have hlen : 0 < (l.insertionSort (fun a b => a.1 ≤ b.1)).length := by
    rw [List.length_insertionSort]
    exact List.length_pos.2 h
  split
  · next hc =>
    intro hnil
    have := congrArg List.length hnil
    rw [List.length_drop, List.length_nil] at this
    omega
  · intro hnil
    rw [hnil] at hlen
    simp at hlen

theorem clampRate_nonneg (x : ℚ) : 0 ≤ clampRate x :=
  le_min (le_max_right x 0) (by norm_num)

theorem clampRate_le_bound (x : ℚ) : clampRate x ≤ 9/10 :=
  min_le_right _ _

theorem incomeRates_eq (p : AIRuleParams) :
    incomeRates p = (min (clampRate p.savingsRateLow) (clampRate p.savingsRateHigh),
      max (clampRate p.savingsRateLow) (clampRate p.savingsRateHigh)) := by
  unfold incomeRates
  dsimp only
  split
  · next h => rw [min_eq_right h.le, max_eq_left h.le]
  · next h => rw [min_eq_left (not_lt.mp h), max_eq_right (not_lt.mp h)]

theorem incomeRates_fst_nonneg (p : AIRuleParams) : 0 ≤ (incomeRates p).1 := by
  rw [incomeRates_eq]
  exact le_min (clampRate_nonneg _) (clampRate_nonneg _)

theorem incomeRates_fst_le_snd (p : AIRuleParams) :
    (incomeRates p).1 ≤ (incomeRates p).2 := by
  rw [incomeRates_eq]
  exact min_le_max

theorem incomeRates_snd_le (p : AIRuleParams) : (incomeRates p).2 ≤ 9/10 := by
  rw [incomeRates_eq]
  exact max_le (clampRate_le_bound _) (clampRate_le_bound _)

theorem incomeRates_fst_le (p : AIRuleParams) : (incomeRates p).1 ≤ 9/10 :=
  le_trans (incomeRates_fst_le_snd p) (incomeRates_snd_le p)

theorem incomeRates_mid_le (p : AIRuleParams) :
    ((incomeRates p).1 + (incomeRates p).2) / 2 ≤ 9/10 := by
  have h1 := incomeRates_fst_le p
  have h2 := incomeRates_snd_le p
  linarith

theorem applyFloor_some (v : ℚ) (f : Option ℚ) :
    ∃ w, applyFloor (some v) f = some w ∧ v ≤ w := by
  cases f with
  | none => exact ⟨v, rfl, le_rfl⟩
  | some fv => exact ⟨max v fv, rfl, le_max_left _ _⟩

theorem applyFloor_mono {a b : ℚ} (h : a ≤ b) (f : Option ℚ) :
    ∃ wa wb, applyFloor (some a) f = some wa ∧ applyFloor (some b) f = some wb ∧
      wa ≤ wb := by
  cases f with
  | none => exact ⟨a, b, rfl, rfl, h⟩
  | some fv => exact ⟨max a fv, max b fv, rfl, rfl, max_le_max h le_rfl⟩

theorem estimateIncome_eq {series : List (ℤ × ℚ)} (h : series ≠ []) (f : ℚ)
    (p : AIRuleParams) :
    estimateIncome series f p =
      { available := true,
        baseExpense := some (medianQ ((recentK series p.expenseRecentK).map Prod.snd)),
        expectedIncome := applyFloor
          (some (medianQ ((recentK series p.expenseRecentK).map Prod.snd) /
            (1 - ((incomeRates p).1 + (incomeRates p).2) / 2))) (floorIncomeOf f p),
        incomeLow := applyFloor
          (some (medianQ ((recentK series p.expenseRecentK).map Prod.snd) /
            (1 - (incomeRates p).1))) (floorIncomeOf f p),
        incomeHigh := applyFloor
          (some (medianQ ((recentK series p.expenseRecentK).map Prod.snd) /
            (1 - (incomeRates p).2))) (floorIncomeOf f p),
        confidence := confidenceOf ((recentK series p.expenseRecentK).map Prod.snd) } := by
  have h1 : 0 < 1 - (incomeRates p).1 := by have := incomeRates_fst_le p; linarith
  have h2 : 0 < 1 - (incomeRates p).2 := by have := incomeRates_snd_le p; linarith
  have h3 : 0 < 1 - ((incomeRates p).1 + (incomeRates p).2) / 2 := by
    have := incomeRates_mid_le p; linarith
  simp only [estimateIncome, if_neg h, if_pos h1, if_pos h2, if_pos h3]

theorem varLt_sq_iff {v d c : ℚ} (hd : 0 < d) (hc : 0 < c) :
    v < (c * d) ^ 2 ↔ Real.sqrt (v : ℝ) / (d : ℝ) < (c : ℝ) := by
  have hdr : (0:ℝ) < (d:ℝ) := by exact_mod_cast hd
  have hcr : (0:ℝ) < (c:ℝ) := by exact_mod_cast hc
  have hcd : (0:ℝ) < (c:ℝ) * (d:ℝ) := by positivity
  rw [div_lt_iff₀ hdr, Real.sqrt_lt' hcd]
  norm_cast

theorem confidenceOf_iff {vals : List ℚ} (hd : 0 < meanQ vals + 1/1000000000) :
    (confidenceOf vals = "High" ↔ 3 ≤ vals.length ∧
      Real.sqrt ((varianceQ vals : ℝ)) / ((meanQ vals + 1/1000000000 : ℚ) : ℝ)
        < ((1/4 : ℚ) : ℝ)) ∧
    (confidenceOf vals = "Med" ↔
      ¬(3 ≤ vals.length ∧
        Real.sqrt ((varianceQ vals : ℝ)) / ((meanQ vals + 1/1000000000 : ℚ) : ℝ)
          < ((1/4 : ℚ) : ℝ)) ∧
      2 ≤ vals.length ∧
      Real.sqrt ((varianceQ vals : ℝ)) / ((meanQ vals + 1/1000000000 : ℚ) : ℝ)
        < ((2/5 : ℚ) : ℝ)) := by
  have hA := varLt_sq_iff (v := varianceQ vals) hd (by norm_num : (0:ℚ) < 1/4)
  have hB := varLt_sq_iff (v := varianceQ vals) hd (by norm_num : (0:ℚ) < 2/5)
  have hPP : (3 ≤ vals.length ∧ varianceQ vals < (1/4 * (meanQ vals + 1/1000000000)) ^ 2)
      ↔ (3 ≤ vals.length ∧
        Real.sqrt ((varianceQ vals : ℝ)) / ((meanQ vals + 1/1000000000 : ℚ) : ℝ)
          < ((1/4 : ℚ) : ℝ)) := and_congr Iff.rfl hA
  have hQQ : (2 ≤ vals.length ∧ varianceQ vals < (2/5 * (meanQ vals + 1/1000000000)) ^ 2)
      ↔ (2 ≤ vals.length ∧
        Real.sqrt ((varianceQ vals : ℝ)) / ((meanQ vals + 1/1000000000 : ℚ) : ℝ)
          < ((2/5 : ℚ) : ℝ)) := and_congr Iff.rfl hB
  have hMH : ("Med" : String) ≠ "High" := by decide
  have hLH : ("Low" : String) ≠ "High" := by decide
  have hHM : ("High" : String) ≠ "Med" := by decide
  have hLM : ("Low" : String) ≠ "Med" := by decide
  simp only [confidenceOf, if_pos hd]
  constructor
  · by_cases hP : 3 ≤ vals.length ∧
        varianceQ vals < (1/4 * (meanQ vals + 1/1000000000)) ^ 2
    · rw [if_pos hP]
      exact ⟨fun _ => hPP.mp hP, fun _ => rfl⟩
    · rw [if_neg hP]
      constructor
      · intro hcontra
        by_cases hQ : 2 ≤ vals.length ∧
            varianceQ vals < (2/5 * (meanQ vals + 1/1000000000)) ^ 2
        · rw [if_pos hQ] at hcontra
          exact absurd hcontra hMH
        · rw [if_neg hQ] at hcontra
          exact absurd hcontra hLH
      · intro hP'
        exact absurd (hPP.mpr hP') hP
  · by_cases hP : 3 ≤ vals.length ∧
        varianceQ vals < (1/4 * (meanQ vals + 1/1000000000)) ^ 2
    · rw [if_pos hP]
      constructor
      · intro hcontra
        exact absurd hcontra hHM
      · rintro ⟨hnP', -⟩
        exact absurd (hPP.mp hP) hnP'
    · rw [if_neg hP]
      by_cases hQ : 2 ≤ vals.length ∧
          varianceQ vals < (2/5 * (meanQ vals + 1/1000000000)) ^ 2
      · rw [if_pos hQ]
        exact ⟨fun _ => ⟨fun h' => hP (hPP.mpr h'), hQQ.mp hQ⟩, fun _ => rfl⟩
      · rw [if_neg hQ]
        constructor
        · intro hcontra
          exact absurd hcontra hLM
        · rintro ⟨-, hQ'⟩
          exact absurd (hQQ.mpr hQ') hQ

/-! ## Claim theorems -/

/-- C10: for every non-empty monthly expense series and arbitrary
rational savings-rate parameters (negative or ≥ 1 included), the income
estimator clamps both rates into `[0, 0.9]` before inverting, so every
division uses a denominator (`1 - rate`) of at least `0.1`, and
`income_low`, `income_high` and `expected_income` are all defined
(non-`none`) in the available result. -/
theorem estimateIncome_total_safety (series : List (ℤ × ℚ)) (f : ℚ)
    (p : AIRuleParams) (h : series ≠ []) :
    (0 ≤ clampRate p.savingsRateLow ∧ clampRate p.savingsRateLow ≤ 9/10) ∧
    (0 ≤ clampRate p.savingsRateHigh ∧ clampRate p.savingsRateHigh ≤ 9/10) ∧
    1/10 ≤ 1 - (incomeRates p).1 ∧ 1/10 ≤ 1 - (incomeRates p).2 ∧
    1/10 ≤ 1 - ((incomeRates p).1 + (incomeRates p).2) / 2 ∧
    (estimateIncome series f p).available = true ∧
    (estimateIncome series f p).incomeLow.isSome = true ∧
    (estimateIncome series f p).incomeHigh.isSome = true ∧
    (estimateIncome series f p).expectedIncome.isSome = true := by
  have hf := incomeRates_fst_le p
  have hs := incomeRates_snd_le p
  have hm := incomeRates_mid_le p
  refine ⟨⟨clampRate_nonneg _, clampRate_le_bound _⟩,
    ⟨clampRate_nonneg _, clampRate_le_bound _⟩,
    by linarith, by linarith, by linarith, ?_, ?_, ?_, ?_⟩ <;>
    rw [estimateIncome_eq h]
  · obtain ⟨w, hw, -⟩ := applyFloor_some
      (medianQ ((recentK series p.expenseRecentK).map Prod.snd) /
        (1 - (incomeRates p).1)) (floorIncomeOf f p)
    simp [hw]
  · obtain ⟨w, hw, -⟩ := applyFloor_some
      (medianQ ((recentK series p.expenseRecentK).map Prod.snd) /
        (1 - (incomeRates p).2)) (floorIncomeOf f p)
    simp [hw]
  · obtain ⟨w, hw, -⟩ := applyFloor_some
      (medianQ ((recentK series p.expenseRecentK).map Prod.snd) /
        (1 - ((incomeRates p).1 + (incomeRates p).2) / 2)) (floorIncomeOf f p)
    simp [hw]

/-- Witness for C10, with an out-of-range rate pair that must be clamped. -/
theorem estimateIncome_total_safety_witness :
    (estimateIncome [((0:ℤ), (1:ℚ))] 0
      { defaultParams with savingsRateLow := -5, savingsRateHigh := 7/2 }).expectedIncome.isSome
      = true :=
  (estimateIncome_total_safety [((0:ℤ), (1:ℚ))] 0
    { defaultParams with savingsRateLow := -5, savingsRateHigh := 7/2 }
    (by decide)).2.2.2.2.2.2.2.2

/-- C5: whenever `fixed_cost_monthly > 0` (and the `fixed_cost_max_ratio`
parameter is positive, as with its default `0.40`, which the floor formula
presupposes), the estimator raises `income_low`, `income_high` and the
point estimate to at least `floor_income = fixed_cost_monthly /
fixed_cost_max_ratio`. -/
theorem estimateIncome_floor_correction (series : List (ℤ × ℚ)) (f : ℚ)
    (p : AIRuleParams) (h : series ≠ []) (hf : 0 < f)
    (hr : 0 < p.fixedCostMaxRatio) :
    (∃ l, (estimateIncome series f p).incomeLow = some l ∧
      f / p.fixedCostMaxRatio ≤ l) ∧
    (∃ u, (estimateIncome series f p).incomeHigh = some u ∧
      f / p.fixedCostMaxRatio ≤ u) ∧
    (∃ e, (estimateIncome series f p).expectedIncome = some e ∧
      f / p.fixedCostMaxRatio ≤ e) := by
  rw [estimateIncome_eq h]
  have hfl : floorIncomeOf f p = some (f / p.fixedCostMaxRatio) := by
    unfold floorIncomeOf
    rw [if_pos ⟨hf, hr⟩]
  refine ⟨?_, ?_, ?_⟩ <;> rw [hfl]
  · exact ⟨_, rfl, le_max_right _ _⟩
  · exact ⟨_, rfl, le_max_right _ _⟩
  · exact ⟨_, rfl, le_max_right _ _⟩

/-- Witness for C5: `fixed_cost_monthly = 400000`,
`fixed_cost_max_ratio = 0.40`, so `expected_income ≥ 1000000` although the
raw median-based estimate is only `625000`. -/
theorem estimateIncome_floor_correction_witness :
    ∃ e, (estimateIncome [((0:ℤ), (500000:ℚ))] 400000 defaultParams).expectedIncome
        = some e ∧ (1000000:ℚ) ≤ e := by
  obtain ⟨e, he, hb⟩ := (estimateIncome_floor_correction [((0:ℤ), (500000:ℚ))]
    400000 defaultParams (by decide) (by norm_num) (by norm_num [defaultParams])).2.2
  refine ⟨e, he, le_trans (le_of_eq ?_) hb⟩
  norm_num [defaultParams]

/-- C6: for every non-empty monthly expense series with nonnegative
monthly totals (as produced by summing `amount_abs`), the returned range
satisfies `income_low ≤ income_high`, and the estimate is invariant under
swapping the two savings-rate parameters (the bounds are computed from the
smaller and larger clamped rate respectively). -/
theorem estimateIncome_bounds_ordered (series : List (ℤ × ℚ)) (f : ℚ)
    (p : AIRuleParams) (h : series ≠ []) (hnn : ∀ e ∈ series, 0 ≤ e.2) :
    (∃ l u, (estimateIncome series f p).incomeLow = some l ∧
      (estimateIncome series f p).incomeHigh = some u ∧ l ≤ u) ∧
    (∀ a b, estimateIncome series f
        { p with savingsRateLow := a, savingsRateHigh := b } =
      estimateIncome series f
        { p with savingsRateLow := b, savingsRateHigh := a }) := by
  constructor
  · rw [estimateIncome_eq h]
    have hbase : 0 ≤ medianQ ((recentK series p.expenseRecentK).map Prod.snd) := by
      refine medianQ_nonneg fun x hx => ?_
      obtain ⟨e, he, rfl⟩ := List.mem_map.1 hx
      exact hnn e (recentK_subset series p.expenseRecentK he)
    have h2 : 0 < 1 - (incomeRates p).2 := by
      have := incomeRates_snd_le p; linarith
    have hle : medianQ ((recentK series p.expenseRecentK).map Prod.snd) /
        (1 - (incomeRates p).1) ≤
        medianQ ((recentK series p.expenseRecentK).map Prod.snd) /
        (1 - (incomeRates p).2) := by
      refine div_le_div_of_nonneg_left hbase h2 ?_
      have := incomeRates_fst_le_snd p
      linarith
    obtain ⟨wa, wb, hwa, hwb, hw⟩ := applyFloor_mono hle (floorIncomeOf f p)
    exact ⟨wa, wb, hwa, hwb, hw⟩
  · intro a b
    rw [estimateIncome_eq h, estimateIncome_eq h]
    have hswap : incomeRates { p with savingsRateLow := a, savingsRateHigh := b } =
        incomeRates { p with savingsRateLow := b, savingsRateHigh := a } := by
      rw [incomeRates_eq, incomeRates_eq]
      dsimp only
      rw [min_comm, max_comm]
    rw [hswap]
    rfl

/-- Witness for C6, with the two rates given in swapped (descending)
order. -/
theorem estimateIncome_bounds_ordered_witness :
    ∃ l u, (estimateIncome [((0:ℤ), (100:ℚ)), (1, 200)] 0
        { defaultParams with savingsRateLow := 30/100, savingsRateHigh := 10/100 }).incomeLow
        = some l ∧
      (estimateIncome [((0:ℤ), (100:ℚ)), (1, 200)] 0
        { defaultParams with savingsRateLow := 30/100, savingsRateHigh := 10/100 }).incomeHigh
        = some u ∧ l ≤ u :=
  (estimateIncome_bounds_ordered [((0:ℤ), (100:ℚ)), (1, 200)] 0
    { defaultParams with savingsRateLow := 30/100, savingsRateHigh := 10/100 }
    (by decide) (by decide)).1

/-- C3 counterexample: a non-empty monthly series whose recent months all
have total 0 makes `cv = 0 / (0 + 1e-9) = 0`; with three such months the
estimator returns confidence `"High"`, not `"Low"` as the claim states
(the `+ 1e-9` guard prevents the exception but does not treat the cv as
maximal). -/
theorem estimateIncome_zero_months_confidence :
    (estimateIncome [((0:ℤ), (0:ℚ)), (1, 0), (2, 0)] 0 defaultParams).confidence
        = "High" ∧
    ¬(estimateIncome [((0:ℤ), (0:ℚ)), (1, 0), (2, 0)] 0 defaultParams).confidence
        = "Low" := by
  have hne : ([((0:ℤ), (0:ℚ)), (1, 0), (2, 0)] : List (ℤ × ℚ)) ≠ [] := by decide
  have h : (estimateIncome [((0:ℤ), (0:ℚ)), (1, 0), (2, 0)] 0 defaultParams).confidence
      = "High" := by
    rw [estimateIncome_eq hne]
    norm_num [recentK, List.insertionSort, List.orderedInsert,
      confidenceOf, meanQ, varianceQ, defaultParams]
  exact ⟨h, by rw [h]; decide⟩

/-- C3 (amended): no division by zero is raised (for nonnegative series the
cv denominator `mean + 1e-9` is positive and the result is available); the
confidence thresholds are as claimed (`High` iff ≥ 3 recent months and
`cv < 0.25`, `Med` iff not High, ≥ 2 months and `cv < 0.40`, else `Low`);
but when the recent months are all 0 the cv evaluates to 0 (not a maximal
value), so the confidence is `"High"` for ≥ 3 recent months, `"Med"` for
2, and `"Low"` only for 1. -/
theorem estimateIncome_confidence_spec (series : List (ℤ × ℚ)) (f : ℚ)
    (p : AIRuleParams) (h : series ≠ []) (hnn : ∀ e ∈ series, 0 ≤ e.2) :
    0 < meanQ ((recentK series p.expenseRecentK).map Prod.snd) + 1/1000000000 ∧
    (estimateIncome series f p).available = true ∧
    ((estimateIncome series f p).confidence = "High" ↔
      3 ≤ ((recentK series p.expenseRecentK).map Prod.snd).length ∧
      Real.sqrt ((varianceQ ((recentK series p.expenseRecentK).map Prod.snd) : ℝ)) /
        ((meanQ ((recentK series p.expenseRecentK).map Prod.snd) + 1/1000000000 : ℚ) : ℝ)
        < ((1/4 : ℚ) : ℝ)) ∧
    ((estimateIncome series f p).confidence = "Med" ↔
      ¬(3 ≤ ((recentK series p.expenseRecentK).map Prod.snd).length ∧
        Real.sqrt ((varianceQ ((recentK series p.expenseRecentK).map Prod.snd) : ℝ)) /
          ((meanQ ((recentK series p.expenseRecentK).map Prod.snd) + 1/1000000000 : ℚ) : ℝ)
          < ((1/4 : ℚ) : ℝ)) ∧
      2 ≤ ((recentK series p.expenseRecentK).map Prod.snd).length ∧
      Real.sqrt ((varianceQ ((recentK series p.expenseRecentK).map Prod.snd) : ℝ)) /
        ((meanQ ((recentK series p.expenseRecentK).map Prod.snd) + 1/1000000000 : ℚ) : ℝ)
        < ((2/5 : ℚ) : ℝ)) ∧
    ((∀ v ∈ (recentK series p.expenseRecentK).map Prod.snd, v = 0) →
      (estimateIncome series f p).confidence =
        if 3 ≤ ((recentK series p.expenseRecentK).map Prod.snd).length then "High"
        else if 2 ≤ ((recentK series p.expenseRecentK).map Prod.snd).length then "Med"
        else "Low") := by
  have hvnn : ∀ x ∈ (recentK series p.expenseRecentK).map Prod.snd, 0 ≤ x := by
    intro x hx
    obtain ⟨e, he, rfl⟩ := List.mem_map.1 hx
    exact hnn e (recentK_subset series p.expenseRecentK he)
  have hmean : 0 ≤ meanQ ((recentK series p.expenseRecentK).map Prod.snd) := by
    unfold meanQ
    exact div_nonneg (List.sum_nonneg hvnn) (by positivity)
  have hd : 0 < meanQ ((recentK series p.expenseRecentK).map Prod.snd)
      + 1/1000000000 := by linarith
  have hiff := confidenceOf_iff hd
  have hconf : (estimateIncome series f p).confidence =
      confidenceOf ((recentK series p.expenseRecentK).map Prod.snd) := by
    rw [estimateIncome_eq h]
  refine ⟨hd, by rw [estimateIncome_eq h], by rw [hconf]; exact hiff.1,
    by rw [hconf]; exact hiff.2, ?_⟩
  intro hz
  have hm : meanQ ((recentK series p.expenseRecentK).map Prod.snd) = 0 := by
    unfold meanQ
    rw [List.sum_eq_zero hz, zero_div]
  have hv : varianceQ ((recentK series p.expenseRecentK).map Prod.snd) = 0 := by
    unfold varianceQ
    rw [List.sum_eq_zero, zero_div]
    intro y hy
    obtain ⟨x, hx, rfl⟩ := List.mem_map.1 hy
    rw [hz x hx, hm]
    ring
  rw [hconf]
  simp only [confidenceOf, hm, hv]
  norm_num

/-- Witness for C3 (amended): two all-zero months give `"Med"`. -/
theorem estimateIncome_confidence_spec_witness :
    (estimateIncome [((0:ℤ), (0:ℚ)), (1, 0)] 0 defaultParams).confidence = "Med" := by
  have h := (estimateIncome_confidence_spec [((0:ℤ), (0:ℚ)), (1, 0)] 0 defaultParams
    (by decide) (by decide)).2.2.2.2 (by decide)
  rw [h]
  decide

theorem fullMonths_length (txs : List Tx) (endMonth : ℤ) :
    (fullMonths txs endMonth).length
      = ((monthsWithData txs).filter fun m => decide (m < endMonth)).length := by
  unfold fullMonths monthsSorted
  exact ((List.perm_insertionSort _ _).filter _).length_eq

theorem useMonths_length (txs : List Tx) (endMonth : ℤ) (bm : ℕ) :
    (useMonths txs endMonth bm).length = min bm (fullMonths txs endMonth).length := by
  unfold useMonths
  rw [List.length_drop]
  omega

theorem txsInMonth_ne_nil_of_mem_useMonths {txs : List Tx} {endMonth : ℤ}
    {bm : ℕ} {m : ℤ} (hm : m ∈ useMonths txs endMonth bm) :
    txsInMonth txs m ≠ [] := by
  unfold useMonths at hm
  have h1 : m ∈ fullMonths txs endMonth := List.mem_of_mem_drop hm
  unfold fullMonths at h1
  have h2 : m ∈ monthsSorted txs := List.mem_of_mem_filter h1
  unfold monthsSorted at h2
  have h3 : m ∈ monthsWithData txs := (List.mem_insertionSort _).1 h2
  unfold monthsWithData at h3
  obtain ⟨t, ht, hmt⟩ := List.mem_map.1 (List.mem_dedup.1 h3)
  intro hnil
  have hmem : t ∈ txsInMonth txs m := by
    unfold txsInMonth
    rw [List.mem_filter]
    exact ⟨ht, by simp [hmt]⟩
  rw [hnil] at hmem
  exact absurd hmem (List.not_mem_nil t)

theorem distinctDays_ne_zero {txs' : List Tx} (h : txs' ≠ []) :
    distinctDays txs' ≠ 0 := by
  unfold distinctDays
  intro h0
  rw [List.length_eq_zero, List.dedup_eq_nil, List.map_eq_nil_iff] at h0
  exact h h0

theorem monthDailyAvgs_eq_map (txs : List Tx) (endMonth : ℤ) (bm : ℕ) :
    monthDailyAvgs txs endMonth bm = (useMonths txs endMonth bm).map fun m =>
      totalAmount (txsInMonth txs m) / (distinctDays (txsInMonth txs m) : ℚ) := by
  unfold monthDailyAvgs
  refine filterMap_eq_map_of_forall fun m hm => ?_
  have hne := txsInMonth_ne_nil_of_mem_useMonths hm
  simp only [if_neg hne, if_neg (distinctDays_ne_zero hne)]

theorem monthOk_iff (txs : List Tx) (endMonth : ℤ) {bm : ℕ} (hbm : 2 ≤ bm) :
    2 ≤ (monthDailyAvgs txs endMonth bm).length ↔
    2 ≤ ((monthsWithData txs).filter fun m => decide (m < endMonth)).length := by
  rw [monthDailyAvgs_eq_map, List.length_map, useMonths_length, fullMonths_length]
  omega

theorem catDeltasFor_of_ne {used : BaselineKind}
    (h : used ≠ BaselineKind.previousWindow)
    (curTop prevCat : List (String × ℚ)) :
    ∀ e ∈ catDeltasFor used curTop prevCat,
      e.baseline = none ∧ e.diff = none ∧ e.pct = none ∧
      e.baselineReliable = false := by
  intro e he
  unfold catDeltasFor at he
  obtain ⟨p, hp, rfl⟩ := List.mem_map.1 he
  refine ⟨?_, ?_, ?_, ?_⟩ <;> simp [if_neg h, h]

/-- C7: every classified row is exactly one of expense / income / transfer,
and the kind follows the priority transfer keywords > income keywords >
expense keywords > amount-sign fallback (negative ⇒ expense, non-negative
⇒ income); in particular a row matching both transfer and income keywords
is a transfer. -/
theorem classifyType_partition_priority (r : RawRow) :
    ((isExpenseRow r = true ∧ isIncomeRow r = false ∧ isTransferRow r = false) ∨
     (isExpenseRow r = false ∧ isIncomeRow r = true ∧ isTransferRow r = false) ∨
     (isExpenseRow r = false ∧ isIncomeRow r = false ∧ isTransferRow r = true)) ∧
    (matchesAnyKw transferKw (rowText r) = true → isTransferRow r = true) ∧
    (matchesAnyKw transferKw (rowText r) = false →
      matchesAnyKw incomeKw (rowText r) = true → isIncomeRow r = true) ∧
    (matchesAnyKw transferKw (rowText r) = false →
      matchesAnyKw incomeKw (rowText r) = false →
      matchesAnyKw expenseKw (rowText r) = true → isExpenseRow r = true) ∧
    (matchesAnyKw transferKw (rowText r) = false →
      matchesAnyKw incomeKw (rowText r) = false →
      matchesAnyKw expenseKw (rowText r) = false →
      (r.amount < 0 → isExpenseRow r = true) ∧
      (0 ≤ r.amount → isIncomeRow r = true)) := by
  have hTE : ("이체" : String) ≠ "지출" := by decide
  have hTI : ("이체" : String) ≠ "수입" := by decide
  have hIE : ("수입" : String) ≠ "지출" := by decide
  have hIT : ("수입" : String) ≠ "이체" := by decide
  have hET : ("지출" : String) ≠ "이체" := by decide
  have hEI : ("지출" : String) ≠ "수입" := by decide
  unfold isExpenseRow isIncomeRow isTransferRow classifyType
  cases hT : matchesAnyKw transferKw (rowText r) with
  | true =>
    simp [hT, hTE, hTI]
  | false =>
    cases hI : matchesAnyKw incomeKw (rowText r) with
    | true =>
      simp [hT, hI, hIE, hIT]
    | false =>
      cases hE : matchesAnyKw expenseKw (rowText r) with
      | true =>
        simp [hT, hI, hE, hET, hEI]
      | false =>
        by_cases hA : r.amount < 0
        · simp [hT, hI, hE, hA, hET, hEI]
        · simp [hT, hI, hE, hA, hIE, hIT, not_lt.mp hA]

/-- Witness for C7: a row whose text matches both a transfer keyword
(`이체`) and an income keyword (`입금`) is classified as a transfer. -/
theorem classifyType_partition_priority_witness :
    isTransferRow ⟨"", "이체 입금", "", "", "", 5⟩ = true :=
  (classifyType_partition_priority ⟨"", "이체 입금", "", "", "", 5⟩).2.1 (by decide)

/-- C8: when the expected income is unavailable or nonpositive the spend
judgement is the explicit cannot-be-determined label (never the ok
category) and the spend ratio is unavailable; otherwise the ratio is
`total / expected` and the judgement is ok / warning / critical by the two
thresholds. -/
theorem spendJudgement_spec (ei : Option ℚ) (total : ℚ) (p : AIRuleParams) :
    ((ei = none ∨ ∃ e, ei = some e ∧ e ≤ 0) →
      spendJudgement ei total p = (none, "추정 수입 산정 불가")) ∧
    (∀ e, ei = some e → 0 < e →
      (spendJudgement ei total p).1 = some (total / e) ∧
      (total / e < p.overspendRatioOk →
        (spendJudgement ei total p).2 = "정상") ∧
      (p.overspendRatioOk ≤ total / e → total / e < p.overspendRatioWarn →
        (spendJudgement ei total p).2 = "주의") ∧
      (p.overspendRatioOk ≤ total / e → p.overspendRatioWarn ≤ total / e →
        (spendJudgement ei total p).2 = "경고")) ∧
    ((spendJudgement ei total p).2 = "정상" → ∃ e, ei = some e ∧ 0 < e) := by
  have hBad : ("추정 수입 산정 불가" : String) ≠ "정상" := by decide
  have hWarn : ("주의" : String) ≠ "정상" := by decide
  have hCrit : ("경고" : String) ≠ "정상" := by decide
  refine ⟨?_, ?_, ?_⟩
  · rintro (rfl | ⟨e, rfl, he⟩)
    · rfl
    · simp [spendJudgement, if_pos he]
  · rintro e rfl he
    have hne : ¬ e ≤ 0 := not_le.mpr he
    refine ⟨by simp [spendJudgement, hne], fun hok => ?_, fun h1 h2 => ?_,
      fun h1 hw => ?_⟩
    · simp [spendJudgement, hne, if_pos hok]
    · simp [spendJudgement, hne, if_neg (not_lt.mpr h1), if_pos h2]
    · simp [spendJudgement, hne, if_neg (not_lt.mpr h1), if_neg (not_lt.mpr hw)]
  · intro hok
    match hei : ei with
    | none =>
      simp [spendJudgement, hBad] at hok
    | some e =>
      by_cases he : e ≤ 0
      · simp [spendJudgement, if_pos he, hBad] at hok
      · exact ⟨e, rfl, not_le.mp he⟩

/-- Witness for C8: unavailable income gives the cannot-be-determined
label; income 100 with expense 50 gives ratio 1/2 < 0.55, the ok label. -/
theorem spendJudgement_spec_witness :
    spendJudgement (none : Option ℚ) 100 defaultParams
        = (none, "추정 수입 산정 불가") ∧
    (spendJudgement (some (100:ℚ)) 50 defaultParams).2 = "정상" :=
  ⟨(spendJudgement_spec none 100 defaultParams).1 (Or.inl rfl),
   ((spendJudgement_spec (some 100) 50 defaultParams).2.1 100 rfl
     (by norm_num)).2.1 (by norm_num [defaultParams])⟩

/-- C9: with fewer than 2 monthly entries the month-over-month result is
unavailable with all fields null (no synthesized 0% change); with at least
2 entries (chronologically sorted) it compares the last two months and the
change rate is null exactly when the previous month's amount is 0 (and the
computed rate otherwise). -/
theorem calcMomChange_spec (series : List (ℤ × ℚ)) :
    (series.length < 2 →
      calcMomChange series = ⟨false, none, none, none, none, none⟩) ∧
    (2 ≤ series.length → series.Sorted (fun a b : ℤ × ℚ => a.1 ≤ b.1) →
      (calcMomChange series).available = true ∧
      (calcMomChange series).currentMonth
        = some (series.getD (series.length - 1) (0, 0)).1 ∧
      (calcMomChange series).prevMonth
        = some (series.getD (series.length - 2) (0, 0)).1 ∧
      (calcMomChange series).currentAmount
        = some (series.getD (series.length - 1) (0, 0)).2 ∧
      (calcMomChange series).prevAmount
        = some (series.getD (series.length - 2) (0, 0)).2 ∧
      ((series.getD (series.length - 2) (0, 0)).2 = 0 →
        (calcMomChange series).changeRate = none) ∧
      ((series.getD (series.length - 2) (0, 0)).2 ≠ 0 →
        (calcMomChange series).changeRate =
          some (((series.getD (series.length - 1) (0, 0)).2 -
                 (series.getD (series.length - 2) (0, 0)).2) /
                (series.getD (series.length - 2) (0, 0)).2))) := by
  constructor
  · intro h
    unfold calcMomChange
    rw [if_pos h]
  · intro h hs
    have hnl : ¬ series.length < 2 := not_lt.mpr h
    have hsort : series.insertionSort (fun a b : ℤ × ℚ => a.1 ≤ b.1) = series :=
      hs.insertionSort_eq
    unfold calcMomChange
    rw [if_neg hnl, hsort]
    refine ⟨rfl, rfl, rfl, rfl, rfl, fun hz => ?_, fun hnz => ?_⟩
    · simp only [if_pos hz]
    · simp only [if_neg hnz]

/-- Witness for C9: a one-entry series is unavailable; a sorted two-entry
series whose earlier month is 0 yields a null change rate. -/
theorem calcMomChange_spec_witness :
    calcMomChange [((0:ℤ), (5:ℚ))] = ⟨false, none, none, none, none, none⟩ ∧
    (calcMomChange [((0:ℤ), (0:ℚ)), (1, 7)]).changeRate = none :=
  ⟨(calcMomChange_spec [((0:ℤ), (5:ℚ))]).1 (by decide),
   ((calcMomChange_spec [((0:ℤ), (0:ℚ)), (1, 7)]).2 (by decide)
     (by decide)).2.2.2.2.2.1 (by decide)⟩

/-- C2: whenever the selected baseline is `recent_full_months_daily_median`
or `overall_daily_median`, every entry of `category_deltas_top` has
`baseline`, `diff` and `pct` unavailable (`none`, not zero) and
`baseline_reliable = false`, and the weekday/weekend deltas are
unavailable; conversely these deltas are non-null only under the
`previous_window` baseline. -/
theorem shortTermCompare_deltas_unavailable (txs : List Tx) (endDay : ℤ)
    (windowDays baselineMonths topN : ℕ) :
    ((shortTermCompare txs endDay windowDays baselineMonths topN).baselineUsed
        = some BaselineKind.recentFullMonthsDailyMedian ∨
      (shortTermCompare txs endDay windowDays baselineMonths topN).baselineUsed
        = some BaselineKind.overallDailyMedian →
      (∀ e ∈ (shortTermCompare txs endDay windowDays baselineMonths topN).catDeltasTop,
        e.baseline = none ∧ e.diff = none ∧ e.pct = none ∧
        e.baselineReliable = false) ∧
      (shortTermCompare txs endDay windowDays baselineMonths topN).weekdayDiff = none ∧
      (shortTermCompare txs endDay windowDays baselineMonths topN).weekendDiff = none) ∧
    ((shortTermCompare txs endDay windowDays baselineMonths topN).weekdayDiff.isSome = true ∨
      (shortTermCompare txs endDay windowDays baselineMonths topN).weekendDiff.isSome = true →
      (shortTermCompare txs endDay windowDays baselineMonths topN).baselineUsed
        = some BaselineKind.previousWindow) ∧
    ((∃ e ∈ (shortTermCompare txs endDay windowDays baselineMonths topN).catDeltasTop,
        e.baseline.isSome = true ∨ e.diff.isSome = true ∨ e.pct.isSome = true ∨
        e.baselineReliable = true) →
      (shortTermCompare txs endDay windowDays baselineMonths topN).baselineUsed
        = some BaselineKind.previousWindow) := by
  simp only [shortTermCompare]
  by_cases hemp : txs = []
  · rw [if_pos hemp]
    simp [stcUnavailable]
  · rw [if_neg hemp]
    split
    · -- branch A: previous window
      refine ⟨?_, fun _ => rfl, fun _ => rfl⟩
      rintro (h' | h') <;> simp at h'
    · split
      · -- branch B: recent full months daily median
        refine ⟨fun _ => ⟨catDeltasFor_of_ne (by decide) _ _, rfl, rfl⟩, ?_, ?_⟩
        · rintro (h' | h') <;> simp at h'
        · rintro ⟨e, he, hor⟩
          obtain ⟨h1, h2, h3, h4⟩ := catDeltasFor_of_ne (by decide) _ _ e he
          rcases hor with h' | h' | h' | h' <;> simp [h1, h2, h3, h4] at h'
      · split
        · -- branch C: overall daily median
          refine ⟨fun _ => ⟨catDeltasFor_of_ne (by decide) _ _, rfl, rfl⟩, ?_, ?_⟩
          · rintro (h' | h') <;> simp at h'
          · rintro ⟨e, he, hor⟩
            obtain ⟨h1, h2, h3, h4⟩ := catDeltasFor_of_ne (by decide) _ _ e he
            rcases hor with h' | h' | h' | h' <;> simp [h1, h2, h3, h4] at h'
        · -- insufficient data
          simp [stcUnavailable]

/-- Witness for C2: an input that selects the recent-full-months baseline
(no data in the previous window, two earlier months with data). -/
theorem shortTermCompare_deltas_unavailable_witness :
    (shortTermCompare [⟨0, 10, "food"⟩, ⟨31, 10, "food"⟩, ⟨495, 10, "food"⟩]
      500 30 3 3).weekdayDiff = none :=
  ((shortTermCompare_deltas_unavailable
    [⟨0, 10, "food"⟩, ⟨31, 10, "food"⟩, ⟨495, 10, "food"⟩] 500 30 3 3).1
    (Or.inl (by decide))).2.1

/-- C1: the short-term baseline selector follows the strict priority
A → B → C: `previous_window` (confidence High) iff the previous
`window_days`-day period has data on at least `max(10, window_days // 3)`
distinct days; otherwise `recent_full_months_daily_median` (confidence
Medium) iff at least 2 calendar months strictly before the month of
`window_end` have data, with baseline total the median of those months'
(total / distinct-days-with-data) daily averages times `window_days`;
otherwise `overall_daily_median` (confidence Low) iff the history has at
least 14 distinct days; and `available = false`, with an explicit
insufficient-data reason, exactly when none of the gates holds. -/
theorem shortTermCompare_baseline_priority (txs : List Tx) (endDay : ℤ)
    (windowDays baselineMonths topN : ℕ) (hbm : 2 ≤ baselineMonths) :
    ((shortTermCompare txs endDay windowDays baselineMonths topN).baselineUsed
        = some BaselineKind.previousWindow ↔
      max 10 (windowDays / 3) ≤ distinctDays (txsInWindow txs
        (endDay - (2 * (windowDays : ℤ) - 1)) (endDay - (windowDays : ℤ)))) ∧
    ((shortTermCompare txs endDay windowDays baselineMonths topN).baselineUsed
        = some BaselineKind.recentFullMonthsDailyMedian ↔
      (¬ max 10 (windowDays / 3) ≤ distinctDays (txsInWindow txs
        (endDay - (2 * (windowDays : ℤ) - 1)) (endDay - (windowDays : ℤ))) ∧
       2 ≤ ((monthsWithData txs).filter fun m => decide (m < monthOf endDay)).length)) ∧
    ((shortTermCompare txs endDay windowDays baselineMonths topN).baselineUsed
        = some BaselineKind.overallDailyMedian ↔
      (¬ max 10 (windowDays / 3) ≤ distinctDays (txsInWindow txs
        (endDay - (2 * (windowDays : ℤ) - 1)) (endDay - (windowDays : ℤ))) ∧
       ¬ 2 ≤ ((monthsWithData txs).filter fun m => decide (m < monthOf endDay)).length ∧
       14 ≤ (dailyKeys txs).length)) ∧
    ((shortTermCompare txs endDay windowDays baselineMonths topN).available = false ↔
      (¬ max 10 (windowDays / 3) ≤ distinctDays (txsInWindow txs
        (endDay - (2 * (windowDays : ℤ) - 1)) (endDay - (windowDays : ℤ))) ∧
       ¬ 2 ≤ ((monthsWithData txs).filter fun m => decide (m < monthOf endDay)).length ∧
       ¬ 14 ≤ (dailyKeys txs).length)) ∧
    (((shortTermCompare txs endDay windowDays baselineMonths topN).baselineUsed
        = some BaselineKind.previousWindow →
      (shortTermCompare txs endDay windowDays baselineMonths topN).confidence
        = some "High") ∧
     ((shortTermCompare txs endDay windowDays baselineMonths topN).baselineUsed
        = some BaselineKind.recentFullMonthsDailyMedian →
      (shortTermCompare txs endDay windowDays baselineMonths topN).confidence
        = some "Medium") ∧
     ((shortTermCompare txs endDay windowDays baselineMonths topN).baselineUsed
        = some BaselineKind.overallDailyMedian →
      (shortTermCompare txs endDay windowDays baselineMonths topN).confidence
        = some "Low")) ∧
    ((shortTermCompare txs endDay windowDays baselineMonths topN).baselineUsed
        = some BaselineKind.recentFullMonthsDailyMedian →
      (shortTermCompare txs endDay windowDays baselineMonths topN).baselineTotal
        = some (medianQ ((useMonths txs (monthOf endDay) baselineMonths).map fun m =>
            totalAmount (txsInMonth txs m) / (distinctDays (txsInMonth txs m) : ℚ))
          * (windowDays : ℚ))) ∧
    ((shortTermCompare txs endDay windowDays baselineMonths topN).available = false →
      (shortTermCompare txs endDay windowDays baselineMonths topN).reason.isSome
        = true) := by
  have hBiff := monthOk_iff txs (monthOf endDay) hbm
  simp only [shortTermCompare]
  by_cases hemp : txs = []
  · subst hemp
    have hA : ¬ max 10 (windowDays / 3) ≤ distinctDays (txsInWindow []
        (endDay - (2 * (windowDays : ℤ) - 1)) (endDay - (windowDays : ℤ))) := by
      show ¬ max 10 (windowDays / 3) ≤ 0
      omega
    have hB : ¬ 2 ≤ ((monthsWithData ([] : List Tx)).filter
        fun m => decide (m < monthOf endDay)).length := by
      show ¬ 2 ≤ 0
      omega
    have hC : ¬ 14 ≤ (dailyKeys ([] : List Tx)).length := by
      show ¬ 14 ≤ 0
      omega
    rw [if_pos rfl]
    simp [stcUnavailable, hA, hB, hC]
  · rw [if_neg hemp]
    have harg : endDay - ((windowDays : ℤ) - 1) - 1 - ((windowDays : ℤ) - 1)
        = endDay - (2 * (windowDays : ℤ) - 1) := by ring
    have harg2 : endDay - ((windowDays : ℤ) - 1) - 1 = endDay - (windowDays : ℤ) := by
      ring
    rw [harg, harg2]
    by_cases hA : max 10 (windowDays / 3) ≤ distinctDays (txsInWindow txs
        (endDay - (2 * (windowDays : ℤ) - 1)) (endDay - (windowDays : ℤ)))
    · rw [if_pos hA]
      simp [hA]
    · rw [if_neg hA]
      by_cases hB : 2 ≤ (monthDailyAvgs txs (monthOf endDay) baselineMonths).length
      · rw [if_pos hB]
        have hB' := hBiff.mp hB
        refine ⟨by simp [hA], by simp [hA, hB'], by simp [hB'], by simp [hB'],
          ⟨by simp, fun _ => rfl, by simp⟩, fun _ => ?_, by simp⟩
        rw [monthDailyAvgs_eq_map]
      · rw [if_neg hB]
        have hB' : ¬ 2 ≤ ((monthsWithData txs).filter
            fun m => decide (m < monthOf endDay)).length := fun h => hB (hBiff.mpr h)
        by_cases hC : 14 ≤ (dailyKeys txs).length
        · rw [if_pos hC]
          simp [hA, hB', hC]
        · rw [if_neg hC]
          simp [stcUnavailable, hA, hB', hC]

/-- Witness for C1: an input with an empty previous window but two earlier
months with data selects the recent-full-months baseline. -/
theorem shortTermCompare_baseline_priority_witness :
    (shortTermCompare [⟨0, 10, "food"⟩, ⟨31, 10, "food"⟩, ⟨495, 10, "food"⟩]
      500 30 3 3).baselineUsed = some BaselineKind.recentFullMonthsDailyMedian :=
  ((shortTermCompare_baseline_priority
    [⟨0, 10, "food"⟩, ⟨31, 10, "food"⟩, ⟨495, 10, "food"⟩] 500 30 3 3
    (by decide)).2.1).mpr ⟨by decide, by decide⟩

theorem mem_fixedCandidates {rows : List ExpenseRow} {p : String × ℚ}
    (hp : p ∈ fixedCandidates rows) :
    p.1 ∈ fixedDesc rows ∧ p.2 = descMeanAmount (fixedDf rows) p.1 := by
  unfold fixedCandidates at hp
  have h1 := List.mem_of_mem_take hp
  have h2 := (List.mem_insertionSort _).1 h1
  obtain ⟨d, hd, rfl⟩ := List.mem_map.1 h2
  refine ⟨?_, rfl⟩
  obtain ⟨r, hr, hrd⟩ := List.mem_map.1 (List.mem_dedup.1 hd)
  unfold fixedDf at hr
  have h3 := (List.mem_filter.1 hr).2
  rw [← hrd]
  simpa using h3

theorem fixedDesc_monthCount {rows : List ExpenseRow} {d : String}
    (hd : d ∈ fixedDesc rows) : 3 ≤ descMonthCount rows d := by
  unfold fixedDesc at hd
  obtain ⟨p, hp, rfl⟩ := List.mem_map.1 hd
  have h1 := List.mem_of_mem_take hp
  have h2 := List.mem_filter.1 h1
  have h3 : p ∈ repPairs rows := by
    have := h2.1
    unfold sortByCountDesc at this
    exact (List.mem_insertionSort _).1 this
  unfold repPairs at h3
  obtain ⟨d', hd', hpd⟩ := List.mem_map.1 h3
  have hcount : p.2 = descMonthCount rows p.1 := by rw [← hpd]
  have h4 : 3 ≤ p.2 := by simpa using h2.2
  rw [hcount] at h4
  exact h4

theorem descMeanAmount_fixedDf {rows : List ExpenseRow} {d : String}
    (hd : d ∈ fixedDesc rows) :
    descMeanAmount (fixedDf rows) d = descMeanAmount rows d := by
  have hfil : (fixedDf rows).filter (fun r => decide (r.description = d))
      = rows.filter (fun r => decide (r.description = d)) := by
    unfold fixedDf
    rw [List.filter_filter]
    refine List.filter_congr fun r hr => ?_
    by_cases hrd : r.description = d
    · simp [hrd, hd]
    · simp [hrd]
  unfold descMeanAmount
  rw [hfil]

theorem fixedCandidates_complete {rows : List ExpenseRow}
    (hq : ((repPairs rows).filter fun p => decide (3 ≤ p.2)).length ≤ 10)
    {d : String} (hdk : d ∈ descKeys rows) (hcount : 3 ≤ descMonthCount rows d) :
    d ∈ (fixedCandidates rows).map Prod.fst := by
  have hperm : List.Perm
      ((sortByCountDesc (repPairs rows)).filter fun p => decide (3 ≤ p.2))
      ((repPairs rows).filter fun p => decide (3 ≤ p.2)) := by
    unfold sortByCountDesc
    exact (List.perm_insertionSort _ _).filter _
  have htake : ((sortByCountDesc (repPairs rows)).filter
        fun p => decide (3 ≤ p.2)).take 10
      = (sortByCountDesc (repPairs rows)).filter fun p => decide (3 ≤ p.2) :=
    List.take_of_length_le (le_trans (le_of_eq hperm.length_eq) hq)
  have hdfd : d ∈ fixedDesc rows := by
    unfold fixedDesc
    rw [htake]
    refine List.mem_map.2 ⟨(d, descMonthCount rows d), ?_, rfl⟩
    rw [List.mem_filter]
    refine ⟨?_, by simpa using hcount⟩
    unfold sortByCountDesc
    refine (List.mem_insertionSort _).2 ?_
    unfold repPairs
    exact List.mem_map.2 ⟨d, hdk, rfl⟩
  obtain ⟨r, hr, hrd⟩ := List.mem_map.1 (List.mem_dedup.1 hdk)
  have hrfd : r ∈ fixedDf rows := by
    unfold fixedDf
    rw [List.mem_filter]
    exact ⟨hr, by simp [hrd, hdfd]⟩
  have hddk : d ∈ ((fixedDf rows).map ExpenseRow.description).dedup :=
    List.mem_dedup.2 (List.mem_map.2 ⟨r, hrfd, hrd⟩)
  have hfdnodup : (fixedDesc rows).Nodup := by
    have hnodup0 : ((sortByCountDesc (repPairs rows)).map Prod.fst).Nodup := by
      have hp2 : List.Perm ((sortByCountDesc (repPairs rows)).map Prod.fst)
          ((repPairs rows).map Prod.fst) := by
        unfold sortByCountDesc
        exact (List.perm_insertionSort _ _).map _
      rw [hp2.nodup_iff]
      unfold repPairs
      rw [List.map_map]
      have hid : (Prod.fst ∘ fun d : String => (d, descMonthCount rows d)) = id := rfl
      rw [hid, List.map_id]
      exact List.nodup_dedup _
    have hsub : ((((sortByCountDesc (repPairs rows)).filter
          fun p => decide (3 ≤ p.2)).take 10).map Prod.fst).Sublist
        ((sortByCountDesc (repPairs rows)).map Prod.fst) :=
      ((List.take_sublist _ _).trans (List.filter_sublist _)).map Prod.fst
    exact hnodup0.sublist hsub
  have hsubset : ∀ x ∈ ((fixedDf rows).map ExpenseRow.description).dedup,
      x ∈ fixedDesc rows := by
    intro x hx
    obtain ⟨r', hr', hrx⟩ := List.mem_map.1 (List.mem_dedup.1 hx)
    unfold fixedDf at hr'
    have h3 := (List.mem_filter.1 hr').2
    rw [← hrx]
    simpa using h3
  have hlen2 : (((fixedDf rows).map ExpenseRow.description).dedup).length ≤ 10 := by
    have hsp := List.subperm_of_subset (List.nodup_dedup _) hsubset
    have h1 := hsp.length_le
    have h2 : (fixedDesc rows).length ≤ 10 := by
      unfold fixedDesc
      rw [List.length_map]
      exact List.length_take_le _ _
    omega
  have hlen3 : (((((fixedDf rows).map ExpenseRow.description).dedup).map
        fun d' => (d', descMeanAmount (fixedDf rows) d')).insertionSort
        fun a b => b.2 ≤ a.2).length ≤ 10 := by
    rw [List.length_insertionSort, List.length_map]
    exact hlen2
  unfold fixedCandidates
  rw [List.take_of_length_le hlen3]
  refine List.mem_map.2 ⟨(d, descMeanAmount (fixedDf rows) d), ?_, rfl⟩
  exact (List.mem_insertionSort _).2 (List.mem_map.2 ⟨d, hddk, rfl⟩)

/-- C4 counterexample: in `exRows` the description `"big"` recurs in
exactly 3 distinct months (and with mean amount 100 it is the largest-mean
qualifier), yet it is absent from the fixed-cost candidates, because the
cap to 10 is applied to the recurrence counts (the ten 4-month
descriptions win), not to the mean amounts as the claim states. -/
theorem fixedCandidates_missing_qualifier :
    3 ≤ descMonthCount exRows "big" ∧
    "big" ∉ (fixedCandidates exRows).map Prod.fst := by
  refine ⟨by decide, ?_⟩
  intro hmem
  obtain ⟨p, hp, hfst⟩ := List.mem_map.1 hmem
  have hfd := (mem_fixedCandidates hp).1
  rw [hfst] at hfd
  exact absurd hfd (by decide)

/-- C4 (amended): every fixed-cost candidate recurs in at least 3 distinct
months and carries its mean per-occurrence amount; the candidate list is
sorted by mean descending and capped at 10; every qualifying description
is included provided at most 10 descriptions qualify (the cap is applied
to the most-recurring, not the largest-mean, qualifiers); and the
estimated monthly total is the sum of the candidates' means. -/
theorem fixedCandidates_spec (rows : List ExpenseRow) :
    (∀ p ∈ fixedCandidates rows, 3 ≤ descMonthCount rows p.1 ∧
      p.2 = descMeanAmount rows p.1) ∧
    (fixedCandidates rows).Sorted (fun a b => b.2 ≤ a.2) ∧
    (fixedCandidates rows).length ≤ 10 ∧
    (((repPairs rows).filter fun p => decide (3 ≤ p.2)).length ≤ 10 →
      ∀ d ∈ descKeys rows, 3 ≤ descMonthCount rows d →
        d ∈ (fixedCandidates rows).map Prod.fst) ∧
    fixedCostEstMonthlyOf rows = ((fixedCandidates rows).map Prod.snd).sum := by
  refine ⟨?_, ?_, ?_, ?_, rfl⟩
  · intro p hp
    obtain ⟨h1, h2⟩ := mem_fixedCandidates hp
    exact ⟨fixedDesc_monthCount h1, by rw [h2, descMeanAmount_fixedDf h1]⟩
  · unfold fixedCandidates
    exact List.Pairwise.sublist (List.take_sublist _ _) (List.sorted_insertionSort _ _)
  · unfold fixedCandidates
    exact List.length_take_le _ _
  · intro hq d hdk hc
    exact fixedCandidates_complete hq hdk hc

/-- Witness for C4 (amended): with a single description recurring in 3
months, it appears among the candidates. -/
theorem fixedCandidates_spec_witness :
    ("rent" : String) ∈ (fixedCandidates
      [⟨0, 7, "rent"⟩, ⟨31, 7, "rent"⟩, ⟨59, 7, "rent"⟩]).map Prod.fst :=
  (fixedCandidates_spec [⟨0, 7, "rent"⟩, ⟨31, 7, "rent"⟩, ⟨59, 7, "rent"⟩]).2.2.2.1
    (by decide) "rent" (by decide) (by decide)

end SpendingAnalysis
